import Mathlib

/-!
Shallow embedding of the 3MF XML decoder in
`src/code/AssetLib/3MF/D3MFImporter.cpp` (class `Assimp::D3MF::XmlSerializer`),
together with theorems checking the natural-language specification against it.

The XML tree, attribute access, and C standard-library text-to-number
conversions are external collaborators of the decoder; they are embedded here
by their documented contracts.  Machine integers appear as `Nat`/`Int` with
explicit reductions modulo `2^32` where the C++ converts to `unsigned int`.
An unchecked out-of-range `std::vector::operator[]` access (undefined behavior
in the C++) is modelled by `Option`: `none` marks the undefined access.
-/

/-! ## XML collaborator model -/

/-- An XML element: tag name, attribute list, child elements, and the pugixml
node value (`node.value()`).  This models the node/attribute/child traversal
primitives the decoder receives from its external XML-tree collaborator. -/
inductive XmlElem where
  | mk (name : String) (attrs : List (String × String))
       (children : List XmlElem) (value : String)

/-- Tag name of an element. -/
def XmlElem.name : XmlElem → String
  | .mk n _ _ _ => n

/-- Attribute list of an element. -/
def XmlElem.attrs : XmlElem → List (String × String)
  | .mk _ a _ _ => a

/-- Child elements, in document order. -/
def XmlElem.children : XmlElem → List XmlElem
  | .mk _ _ c _ => c

/-- The pugixml `node.value()` of the element node. -/
def XmlElem.value : XmlElem → String
  | .mk _ _ _ v => v

/-- Look up an attribute by name; `some` iff the attribute is present
(models `XmlSerializer::getNodeAttribute`, which tests `attribute.empty()`). -/
def getNodeAttribute (node : XmlElem) (attrName : String) : Option String :=
  node.attrs.lookup attrName

/-- pugixml `xml_attribute::as_string()` returns its default, the empty
string, for a missing attribute; it never returns a null pointer.  The
decoder's `nullptr` comparisons against `as_string()` results therefore
always pass. -/
def asString (a : Option String) : String := a.getD ""

/-- pugixml `node.child(name)`: first child element with the given name,
or the empty node handle when there is none. -/
def childNamed (node : XmlElem) (n : String) : Option XmlElem :=
  node.children.find? (fun c => c.name = n)

/-! ## Tag vocabulary

Modelled from the spec: the tag/attribute name constants of `3MFXmlTags.h`
(`D3MF::XmlTag`), a repository header that is not under `src/`; the names
follow the spec's recognized element/attribute vocabulary. -/

namespace XmlTag

def model := "model"
def resources := "resources"
def object := "object"
def build := "build"
def basematerials := "basematerials"
def basematerials_id := "id"
def basematerials_base := "base"
def basematerials_name := "name"
def basematerials_displaycolor := "displaycolor"
def meta := "metadata"
def meta_name := "name"
def mesh := "mesh"
def vertices := "vertices"
def vertex := "vertex"
def triangles := "triangles"
def triangle := "triangle"
def x := "x"
def y := "y"
def z := "z"
def v1 := "v1"
def v2 := "v2"
def v3 := "v3"
def id := "id"
def pid := "pid"
def pindex := "pindex"
def p1 := "p1"

end XmlTag

/-! ## C text-to-number conversions -/

/-- C `isspace` on the default locale: space, tab, newline, vertical tab,
form feed, carriage return. -/
def cSpace (c : Char) : Bool :=
  decide (c.toNat = 32 ∨ (9 ≤ c.toNat ∧ c.toNat ≤ 13))

/-- Value of a hexadecimal digit character, if it is one. -/
def hexDigitVal (c : Char) : Option Nat :=
  if 48 ≤ c.toNat ∧ c.toNat ≤ 57 then some (c.toNat - 48)
  else if 97 ≤ c.toNat ∧ c.toNat ≤ 102 then some (c.toNat - 87)
  else if 65 ≤ c.toNat ∧ c.toNat ≤ 70 then some (c.toNat - 55)
  else none

/-- Accumulate leading hexadecimal digits, stopping at the first
non-digit (the `strtol` digit loop). -/
def hexLoop : List Char → Nat → Nat
  | [], acc => acc
  | c :: cs, acc =>
    match hexDigitVal c with
    | some d => hexLoop cs (16 * acc + d)
    | none => acc

/-- The `strtol(..., 16)` subject sequence after whitespace and sign:
an optional `0x`/`0X` prefix (taken only when followed by a hex digit),
then hex digits. -/
def hexBody (l : List Char) : Nat :=
  match l with
  | c0 :: c1 :: rest =>
    if c0 = '0' && (c1 = 'x' || c1 = 'X') &&
        (match rest with | r :: _ => (hexDigitVal r).isSome | [] => false)
    then hexLoop rest 0
    else hexLoop (c0 :: c1 :: rest) 0
  | l => hexLoop l 0

/-- C `strtol(s, nullptr, 16)` on the short strings the decoder builds
(two-character component buffers): skip whitespace, optional sign, parse
hex digits; no digits yields 0.  Overflow clamping is not modelled: the
decoder only ever passes two-character buffers, which cannot overflow. -/
def strtol16 (l : List Char) : Int :=
  match l.dropWhile cSpace with
  | [] => 0
  | c :: cs =>
    if c = '+' then (hexBody cs : Int)
    else if c = '-' then -(hexBody cs : Int)
    else (hexBody (c :: cs) : Int)

/-- Decimal digit loop of `atoi`. -/
def digLoop : List Char → Nat → Nat
  | [], acc => acc
  | c :: cs, acc =>
    if 48 ≤ c.toNat ∧ c.toNat ≤ 57 then digLoop cs (10 * acc + (c.toNat - 48))
    else acc

/-- C `atoi`: skip whitespace, optional sign, leading decimal digits; no
digits (including the empty string) yields 0.  Overflow (undefined in C)
is not modelled; the claims only involve small values. -/
def atoiChars (l : List Char) : Int :=
  match l.dropWhile cSpace with
  | [] => 0
  | c :: cs =>
    if c = '+' then (digLoop cs 0 : Int)
    else if c = '-' then -(digLoop cs 0 : Int)
    else (digLoop (c :: cs) 0 : Int)

/-- C `atoi` on a string. -/
def atoi (s : String) : Int := atoiChars s.data

/-- One more than the largest `unsigned int` value. -/
def u32Mod : Nat := 4294967296

/-- C++ conversion from `int` to `unsigned int`: reduction modulo `2^32`. -/
def intToU32 (i : Int) : Nat := (i % (u32Mod : Int)).toNat

/-- Modelled from the spec: `ai_strtof` (assimp's `fast_atof`, not under
`src/`) parses decimal float text; per the spec, unparsable or missing text
yields 0.0.  Embedded here for plain decimal literals (optional sign,
digits, optional fraction), which suffices for every claim: no claim
constrains vertex coordinate values. -/
def fracLoop : List Char → ℚ → ℚ → ℚ
  | [], acc, _ => acc
  | c :: cs, acc, scale =>
    if 48 ≤ c.toNat ∧ c.toNat ≤ 57 then
      fracLoop cs (acc + scale * ((c.toNat - 48 : Nat) : ℚ)) (scale / 10)
    else acc

/-- Integer-part digit loop of the decimal float parser. -/
def decLoop : List Char → ℚ → (ℚ × List Char)
  | [], acc => (acc, [])
  | c :: cs, acc =>
    if 48 ≤ c.toNat ∧ c.toNat ≤ 57 then
      decLoop cs (10 * acc + ((c.toNat - 48 : Nat) : ℚ))
    else (acc, c :: cs)

/-- Decimal float text to a rational (see `fracLoop`). -/
def ai_strtof (s : String) : ℚ :=
  match s.data.dropWhile cSpace with
  | [] => 0
  | c :: cs =>
    let body := fun (l : List Char) =>
      let (ip, rest) := decLoop l 0
      match rest with
      | '.' :: fs => ip + fracLoop fs 0 (1 / 10)
      | _ => ip
    if c = '+' then body cs
    else if c = '-' then -(body cs)
    else body (c :: cs)

/-! ## Output scene-graph object model

Modelled from the spec: the output graph containers (`aiScene`, `aiNode`,
`aiMesh`, `aiMaterial`, `aiColor4D`, `aiFace`) are external collaborators
declared in headers outside `src/`.  Their fields and defaults follow the
spec's data model (§3): color components as exact rationals, alpha
defaulting to 1.0; a freshly constructed mesh has no vertices, no faces and
material index 0.  Nullable `aiNode*`/`aiMaterial*` pointers appear as
`Option`. -/

structure AIColor4D where
  r : ℚ
  g : ℚ
  b : ℚ
  a : ℚ
deriving DecidableEq

/-- Default-constructed diffuse color handed to `parseColor` by
`assignDiffuseColor`; per the spec alpha defaults to 1.0 when the short
`#RRGGBB` form leaves it unwritten. -/
def defaultAiColor4D : AIColor4D := ⟨0, 0, 0, 1⟩

structure AIMaterial where
  name : String
  diffuse : Option AIColor4D
deriving DecidableEq

structure Vertex where
  x : ℚ
  y : ℚ
  z : ℚ
deriving DecidableEq

structure AIFace where
  indices : List Nat
deriving DecidableEq

structure AIMesh where
  name : String
  vertices : List Vertex
  faces : List AIFace
  materialIndex : Nat
  primitiveTypes : Nat
deriving DecidableEq

/-- A freshly constructed `aiMesh` (`new aiMesh()`), before any field is
written. -/
def newAIMesh : AIMesh := ⟨"", [], [], 0, 0⟩

/-- `aiPrimitiveType_TRIANGLE` flag value. -/
def aiPrimitiveType_TRIANGLE : Nat := 4

/-- An object node of the output graph: name and mesh-array indices.  The
decoder never gives object nodes children of their own. -/
structure ObjNode where
  name : String
  meshIndices : List Nat
deriving DecidableEq

/-- The synthetic root node: name and children array; a child entry is
`none` when the C++ stored a null `aiNode*`. -/
structure RootNode where
  name : String
  children : List (Option ObjNode)
deriving DecidableEq

structure AIScene where
  root : Option RootNode
  meshes : List AIMesh
  materials : List (Option AIMaterial)
  metadata : List (String × String)
deriving DecidableEq

/-- A freshly constructed `aiScene` as handed to `ImportXml` for a new
decode: no root node, no meshes, no materials, no metadata. -/
def emptyAIScene : AIScene := ⟨none, [], [], []⟩

/-! ## Serializer state -/

/-- `mBasematerialsDictionnary`: group id (unsigned) to the group's ordered
`(global material index, aiMaterial*)` pairs. -/
abbrev Dict := List (Nat × List (Nat × Option AIMaterial))

/-- The mutable fields of `XmlSerializer`: `mMetaData`, `mMeshes`,
`mBasematerialsDictionnary`, `mMaterialCount`. -/
structure SState where
  metaData : List (String × String)
  meshes : List AIMesh
  dict : Dict
  materialCount : Nat
deriving DecidableEq

/-- The state the `XmlSerializer` constructor establishes. -/
def initState : SState := ⟨[], [], [], 0⟩

/-- `std::map::insert`: inserts only when the key is not yet present; an
existing entry is left untouched. -/
def mapInsert (d : Dict) (k : Nat) (v : List (Nat × Option AIMaterial)) : Dict :=
  if (d.lookup k).isSome then d else d ++ [(k, v)]

/-- `std::vector::operator[]` with an `int` subscript.  A negative or
out-of-range subscript is undefined behavior in the C++; the model returns
`none` there, and `none` propagates through the decode as the marker of the
undefined access. -/
def vecGet (l : List α) (i : Int) : Option α :=
  if 0 ≤ i then l.get? i.toNat else none

/-! ## Color parsing (`XmlSerializer::parseColor`, `assignDiffuseColor`) -/

/-- `parseColor` on the character list of the color string.  The C++ takes
the string by `const char *` and first rejects a null pointer; its callers
obtain the pointer from `as_string()`, which is never null, so that branch
is unreachable and the embedding takes the string itself.  Length must be
7 or 9, the first character `#`; each two-character component is converted
with `strtol(.., 16)` and divided by 255; with length 7 the function
returns before writing alpha, leaving the caller's value. -/
def parseColorChars (l : List Char) (d : AIColor4D) : Option AIColor4D :=
  if l.length ≠ 9 ∧ l.length ≠ 7 then none
  else
    match l with
    | [] => none   -- unreachable: the length is 7 or 9
    | c :: rest =>
      if c ≠ '#' then none
      else
        match rest with
        | r1 :: r2 :: g1 :: g2 :: b1 :: b2 :: tail =>
          let d := { d with r := (strtol16 [r1, r2] : ℚ) / 255,
                            g := (strtol16 [g1, g2] : ℚ) / 255,
                            b := (strtol16 [b1, b2] : ℚ) / 255 }
          if l.length = 7 then some d
          else
            match tail with
            | a1 :: a2 :: _ => some { d with a := (strtol16 [a1, a2] : ℚ) / 255 }
            | _ => none   -- unreachable: the length is 9
        | _ => none   -- unreachable: the length is 7 or 9

/-- `XmlSerializer::parseColor`; `some` is the C++ `true` return together
with the written-to `diffuse` out-parameter. -/
def parseColor (s : String) (d : AIColor4D) : Option AIColor4D :=
  parseColorChars s.data d

/-- `XmlSerializer::assignDiffuseColor`: parse the `displaycolor`
attribute; only on success add the diffuse-color property. -/
def assignDiffuseColor (node : XmlElem) (mat : AIMaterial) : AIMaterial :=
  let color := asString (getNodeAttribute node XmlTag.basematerials_displaycolor)
  match parseColor color defaultAiColor4D with
  | some diffuse => { mat with diffuse := some diffuse }
  | none => mat

/-! ## Base materials (`XmlSerializer::readMaterialDef`, `ReadBaseMaterials`) -/

/-- `XmlSerializer::readMaterialDef`.  Returns `none` (the C++ null
pointer) when the node is not a `base` element.  The `name` pointer comes
from `as_string()` and is never null, so the C++ fallback branch that
synthesizes `basemat_<n>` is unreachable: a missing name attribute
contributes the empty string. -/
def readMaterialDef (node : XmlElem) (basematerialsId : Nat) : Option AIMaterial :=
  if node.name = XmlTag.basematerials_base then
    let name := asString (getNodeAttribute node XmlTag.basematerials_name)
    let stdMatName := "id" ++ toString basematerialsId ++ "_" ++ name
    some (assignDiffuseColor node { name := stdMatName, diffuse := none })
  else none

/-- The child loop of `ReadBaseMaterials`: each `base` child is paired with
the current `mMaterialCount`, which is then incremented (an `unsigned int`
increment, hence modulo `2^32`). -/
def readBaseMaterialsLoop (id : Nat) :
    List XmlElem → List (Nat × Option AIMaterial) → Nat →
    (List (Nat × Option AIMaterial) × Nat)
  | [], mats, cnt => (mats, cnt)
  | c :: rest, mats, cnt =>
    if c.name = XmlTag.basematerials_base then
      readBaseMaterialsLoop id rest (mats ++ [(cnt, readMaterialDef c id)]) ((cnt + 1) % u32Mod)
    else
      readBaseMaterialsLoop id rest mats cnt

/-- `XmlSerializer::ReadBaseMaterials`.  The `id` attribute string comes
from `as_string()` and is never null, so the C++ null guard always passes;
a missing attribute reads as the empty string and `atoi` turns it into
group id 0.  The finished group is `insert`ed into the dictionary (no
overwrite of an existing key). -/
def ReadBaseMaterials (st : SState) (node : XmlElem) : SState :=
  let id := intToU32 (atoi (asString (getNodeAttribute node XmlTag.basematerials_id)))
  let (materials, cnt) := readBaseMaterialsLoop id node.children [] st.materialCount
  { st with dict := mapInsert st.dict id materials, materialCount := cnt }

/-! ## Metadata (`XmlSerializer::ReadMetadata`) -/

/-- `XmlSerializer::ReadMetadata`: entries with an empty name are
discarded; others are appended in order. -/
def ReadMetadata (st : SState) (node : XmlElem) : SState :=
  let name := asString (getNodeAttribute node XmlTag.meta_name)
  let value := node.value
  if name = "" then st
  else { st with metaData := st.metaData ++ [(name, value)] }

/-! ## Geometry (`ReadVertex`, `ImportVertices`, `ReadTriangle`,
`ImportTriangles`, `ReadMesh`) -/

/-- `XmlSerializer::ReadVertex`. -/
def ReadVertex (node : XmlElem) : Vertex :=
  ⟨ai_strtof (asString (getNodeAttribute node XmlTag.x)),
   ai_strtof (asString (getNodeAttribute node XmlTag.y)),
   ai_strtof (asString (getNodeAttribute node XmlTag.z))⟩

/-- Vertex loop of `ImportVertices`. -/
def importVerticesLoop : List XmlElem → List Vertex → List Vertex
  | [], vs => vs
  | c :: rest, vs =>
    if c.name = XmlTag.vertex then importVerticesLoop rest (vs ++ [ReadVertex c])
    else importVerticesLoop rest vs

/-- `XmlSerializer::ImportVertices`: replaces the mesh's vertex array. -/
def ImportVertices (node : XmlElem) (mesh : AIMesh) : AIMesh :=
  { mesh with vertices := importVerticesLoop node.children [] }

/-- `XmlSerializer::ReadTriangle`: three `unsigned int` indices from
`atoi` of the `v1`,`v2`,`v3` attributes. -/
def ReadTriangle (node : XmlElem) : AIFace :=
  ⟨[intToU32 (atoi (asString (getNodeAttribute node XmlTag.v1))),
    intToU32 (atoi (asString (getNodeAttribute node XmlTag.v2))),
    intToU32 (atoi (asString (getNodeAttribute node XmlTag.v3)))]⟩

/-- Triangle loop of `ImportTriangles`.  The C++ compares the `pid` and
`p1` attribute strings against `nullptr`; `as_string()` never returns a
null pointer, so both tests pass even when the attributes are absent, and
absent attributes read as the empty string (`atoi` value 0).  When the
(converted) `pid` is a dictionary key, the group's vector is subscripted
at `p1` with no bounds check (`none` marks the undefined out-of-range
access). -/
def importTrianglesLoop (dict : Dict) :
    List XmlElem → List AIFace → AIMesh → Option (List AIFace × AIMesh)
  | [], faces, mesh => some (faces, mesh)
  | c :: rest, faces, mesh =>
    if c.name = XmlTag.triangle then
      let faces := faces ++ [ReadTriangle c]
      let pidToken := asString (getNodeAttribute c XmlTag.pid)
      let p1Token := asString (getNodeAttribute c XmlTag.p1)
      if (dict.lookup (intToU32 (atoi pidToken))).isSome then
        match vecGet ((dict.lookup (intToU32 (atoi pidToken))).getD []) (atoi p1Token) with
        | some pr => importTrianglesLoop dict rest faces { mesh with materialIndex := pr.1 }
        | none => none
      else importTrianglesLoop dict rest faces mesh
    else importTrianglesLoop dict rest faces mesh

/-- `XmlSerializer::ImportTriangles`: run the triangle loop, then replace
the mesh's face array and set the primitive type. -/
def ImportTriangles (dict : Dict) (node : XmlElem) (mesh : AIMesh) : Option AIMesh :=
  match importTrianglesLoop dict node.children [] mesh with
  | none => none
  | some (faces, mesh) =>
    some { mesh with faces := faces, primitiveTypes := aiPrimitiveType_TRIANGLE }

/-- Child loop of `ReadMesh`. -/
def readMeshLoop (dict : Dict) : List XmlElem → AIMesh → Option AIMesh
  | [], mesh => some mesh
  | c :: rest, mesh =>
    if c.name = XmlTag.vertices then readMeshLoop dict rest (ImportVertices c mesh)
    else if c.name = XmlTag.triangles then
      match ImportTriangles dict c mesh with
      | none => none
      | some mesh => readMeshLoop dict rest mesh
    else readMeshLoop dict rest mesh

/-- `XmlSerializer::ReadMesh`. -/
def ReadMesh (dict : Dict) (node : XmlElem) : Option AIMesh :=
  readMeshLoop dict node.children newAIMesh

/-! ## Objects (`XmlSerializer::ReadObject`) -/

/-- The object-level material assignment inside `ReadObject`'s mesh loop:
with both `pid` and `pindex` attributes present and the (converted) `pid`
a dictionary key, the group's vector is subscripted at `pindex` with no
bounds check (`none` marks the undefined out-of-range access) and the
result overwrites the mesh's material index. -/
def objAssign (dict : Dict) (pid? pindex? : Option String) (mesh : AIMesh) :
    Option AIMesh :=
  match pid?, pindex? with
  | some pid, some pindex =>
    if (dict.lookup (intToU32 (atoi pid))).isSome then
      match vecGet ((dict.lookup (intToU32 (atoi pid))).getD []) (atoi pindex) with
      | some pr => some { mesh with materialIndex := pr.1 }
      | none => none
    else some mesh
  | _, _ => some mesh

/-- Mesh loop of `ReadObject`: each `mesh` child is read (vertices and
triangles, including any triangle-level material assignment), named after
the object id, then the object-level `pid`/`pindex` assignment is applied,
and the mesh is appended to `mMeshes` while its index is recorded. -/
def readObjectLoop (dict : Dict) (pid? pindex? : Option String) (id : String) :
    List XmlElem → List AIMesh → List Nat → Nat →
    Option (List AIMesh × List Nat × Nat)
  | [], meshes, ids, idx => some (meshes, ids, idx)
  | c :: rest, meshes, ids, idx =>
    if c.name = XmlTag.mesh then
      match (ReadMesh dict c).bind
          (fun mesh0 => objAssign dict pid? pindex? { mesh0 with name := id }) with
      | none => none
      | some mesh2 =>
        readObjectLoop dict pid? pindex? id rest (meshes ++ [mesh2]) (ids ++ [idx]) (idx + 1)
    else readObjectLoop dict pid? pindex? id rest meshes ids idx

/-- `XmlSerializer::ReadObject`.  Without an `id` attribute the function
returns a null node pointer (`some (st, none)`: a defined value, distinct
from the undefined-access marker) before reading any mesh.  Otherwise the
mesh loop runs and the object node records the id and the recorded mesh
indices.  (The parent pointer written into the node is not modelled; no
claim mentions it.) -/
def ReadObject (st : SState) (node : XmlElem) : Option (SState × Option ObjNode) :=
  let id? := getNodeAttribute node XmlTag.id
  let pid? := getNodeAttribute node XmlTag.pid
  let pindex? := getNodeAttribute node XmlTag.pindex
  match id? with
  | none => some (st, none)
  | some id =>
    match readObjectLoop st.dict pid? pindex? id node.children st.meshes [] st.meshes.length with
    | none => none
    | some (meshes, ids, _) => some ({ st with meshes := meshes }, some ⟨id, ids⟩)

/-! ## Top level (`XmlSerializer::ImportXml`) -/

/-- Resource-walker loop of `ImportXml`: dispatch each child of
`<resources>` by tag name; the result of `ReadObject` (possibly a null
node pointer) is pushed into the children vector unconditionally. -/
def importXmlLoop : List XmlElem → SState → List (Option ObjNode) →
    Option (SState × List (Option ObjNode))
  | [], st, children => some (st, children)
  | c :: rest, st, children =>
    if c.name = XmlTag.object then
      match ReadObject st c with
      | none => none
      | some (st, nd) => importXmlLoop rest st (children ++ [nd])
    else if c.name = XmlTag.build then importXmlLoop rest st children
    else if c.name = XmlTag.basematerials then
      importXmlLoop rest (ReadBaseMaterials st c) children
    else if c.name = XmlTag.meta then importXmlLoop rest (ReadMetadata st c) children
    else importXmlLoop rest st children

/-- Scene-assembly flattening of the material dictionary: a freshly
allocated array of `count` slots (a slot never written stays `none`),
each group's pairs written at their assigned global index. -/
def flattenMaterials (dict : Dict) (count : Nat) : List (Option AIMaterial) :=
  dict.foldl (fun arr g => g.2.foldl (fun arr p => arr.set p.1 p.2) arr)
    (List.replicate count none)

/-- `XmlSerializer::ImportXml`.  A null scene pointer returns immediately.
Otherwise a fresh root node is allocated; a missing `model` child returns
with only that root installed.  A missing `resources` child yields an
empty node handle whose child iteration visits nothing.  After the walk:
the root (freshly allocated, hence with an empty name) is named `3MF`,
metadata is installed only when nonempty, the mesh array is copied, the
material array is allocated only when the counter is nonzero, and the
children (null entries included) are installed on the root.  The result
pairs the final serializer state with the scene. -/
def ImportXml (st : SState) (docRoot : XmlElem) (scene : Option AIScene) :
    Option (SState × Option AIScene) :=
  match scene with
  | none => some (st, none)
  | some scene =>
    let rootName0 := ""
    match childNamed docRoot XmlTag.model with
    | none => some (st, some { scene with root := some ⟨rootName0, []⟩ })
    | some modelNode =>
      let resChildren :=
        match childNamed modelNode XmlTag.resources with
        | none => []
        | some resNode => resNode.children
      match importXmlLoop resChildren st [] with
      | none => none
      | some (st, children) =>
        let rootName := if rootName0.length = 0 then "3MF" else rootName0
        let metadata := if st.metaData.isEmpty then scene.metadata else st.metaData
        let materials :=
          if st.materialCount ≠ 0 then flattenMaterials st.dict st.materialCount
          else scene.materials
        some (st, some { root := some ⟨rootName, children⟩, meshes := st.meshes,
                         materials := materials, metadata := metadata })

/-! ## Concrete inputs for the claim checks -/

/-- A `base` element with material name `A` and no display color. -/
def baseA : XmlElem := .mk "base" [("name", "A")] [] ""

/-- A `base` element with material name `B` and no display color. -/
def baseB : XmlElem := .mk "base" [("name", "B")] [] ""

/-- A `base` element with no attributes at all. -/
def baseN : XmlElem := .mk "base" [] [] ""

/-- A `basematerials` group, id 1, with two base materials. -/
def bmAB : XmlElem := .mk "basematerials" [("id", "1")] [baseA, baseB] ""

/-- A `basematerials` group, id 2, with three base materials. -/
def bmABC2 : XmlElem := .mk "basematerials" [("id", "2")] [baseN, baseN, baseN] ""

/-- A triangle whose `pid`/`p1` reference resolves to global material index 1. -/
def triPid1P1 : XmlElem :=
  .mk "triangle" [("v1", "0"), ("v2", "1"), ("v3", "2"), ("pid", "1"), ("p1", "1")] [] ""

/-- A `triangles` element holding `triPid1P1`. -/
def trisC1 : XmlElem := .mk "triangles" [] [triPid1P1] ""

/-- A `mesh` element holding `trisC1`. -/
def meshC1 : XmlElem := .mk "mesh" [] [trisC1] ""

/-- An object with id `o` and an object-level `pid`/`pindex` reference that
resolves to global material index 0, owning `meshC1`. -/
def objC1 : XmlElem := .mk "object" [("id", "o"), ("pid", "1"), ("pindex", "0")] [meshC1] ""

/-- A document root with the given resource children. -/
def docOf (res : List XmlElem) : XmlElem :=
  .mk "doc" [] [.mk "model" [] [.mk "resources" [] res ""] ""] ""

/-- Document for the C1 check: a two-material group, then an object whose
object-level reference resolves to index 0 and whose sole triangle's
reference resolves to index 1. -/
def c1doc : XmlElem := docOf [bmAB, objC1]

/-- Serializer state after reading the two-material group of `c1doc`. -/
def c1st0 : SState := ReadBaseMaterials initState bmAB

/-- Result of reading `objC1` in state `c1st0`. -/
def c1res : SState × Option ObjNode := (ReadObject c1st0 objC1).getD (initState, none)

/-- An object element with no `id` attribute (but with a mesh child). -/
def objNoId : XmlElem := .mk "object" [] [meshC1] ""

/-- A one-material group declaring id 1 with base material `A`. -/
def bmA1 : XmlElem := .mk "basematerials" [("id", "1")] [baseA] ""

/-- A second group re-declaring id 1 with base material `B`. -/
def bmB1 : XmlElem := .mk "basematerials" [("id", "1")] [baseB] ""

/-- A one-material group declaring id 5. -/
def bm5 : XmlElem := .mk "basematerials" [("id", "5")] [baseN] ""

/-- A one-material group declaring id 0. -/
def bm0 : XmlElem := .mk "basematerials" [("id", "0")] [baseN] ""

/-- A triangle element with no attributes at all. -/
def triNoAttr : XmlElem := .mk "triangle" [] [] ""

/-- An object (id `o`, no object-level material reference) whose mesh holds
the attribute-less triangle. -/
def objPlain : XmlElem :=
  .mk "object" [("id", "o")] [.mk "mesh" [] [.mk "triangles" [] [triNoAttr] ""] ""] ""

/-- A triangle referencing group 1 at out-of-range position 5. -/
def tri15 : XmlElem := .mk "triangle" [("pid", "1"), ("p1", "5")] [] ""

/-- An object (id `o`) whose mesh holds the out-of-range triangle. -/
def obj7 : XmlElem :=
  .mk "object" [("id", "o")] [.mk "mesh" [] [.mk "triangles" [] [tri15] ""] ""] ""

/-- A group with id 1 holding exactly one material. -/
def bm1one : XmlElem := .mk "basematerials" [("id", "1")] [baseN] ""

/-- A document whose root has no `model` child. -/
def c9docA : XmlElem := .mk "doc" [] [] ""

/-- A document whose `model` child has no `resources` child. -/
def c9docB : XmlElem := .mk "doc" [] [.mk "model" [] [] ""] ""

/-- A `base` element whose display color does not parse. -/
def c8node : XmlElem := .mk "base" [("displaycolor", "red")] [] ""

/-- A material with no diffuse color. -/
def c8mat : AIMaterial := ⟨"m", none⟩

/-! ## Derived counting functions for the material-index invariant -/

/-- Number of `base` children: the number of materials a group declares. -/
def countBases (l : List XmlElem) : Nat :=
  (l.filter (fun c => c.name = XmlTag.basematerials_base)).length

/-- The `(global index, material)` pairs `readBaseMaterialsLoop` builds when
no counter wrap occurs, starting from counter value `cnt`. -/
def pairsFrom (id : Nat) : Nat → List XmlElem → List (Nat × Option AIMaterial)
  | _, [] => []
  | cnt, c :: rest =>
    if c.name = XmlTag.basematerials_base then
      (cnt, readMaterialDef c id) :: pairsFrom id (cnt + 1) rest
    else pairsFrom id cnt rest

/-- The list `[c, c+1, ..., c+n-1]`. -/
def idxRange : Nat → Nat → List Nat
  | _, 0 => []
  | c, n + 1 => c :: idxRange (c + 1) n

/-- All global material indices stored in the dictionary, group by group. -/
def dictIdx (d : Dict) : List Nat := d.flatMap (fun g => g.2.map Prod.fst)

/-- Total number of base materials declared by a list of group elements. -/
def sumBases (gs : List XmlElem) : Nat :=
  (gs.map (fun g => countBases g.children)).sum

/-- The dictionary invariant: every stored global index is below the
counter, and the stored indices are pairwise distinct. -/
def dictOk (st : SState) : Prop :=
  (∀ i ∈ dictIdx st.dict, i < st.materialCount) ∧ (dictIdx st.dict).Nodup

/-! ## Theorems: the spec claims checked against the embedding -/
/-- A hexadecimal digit character is not whitespace and not a sign. -/
theorem hexDigit_facts {c : Char} {d : Nat} (h : hexDigitVal c = some d) :
    cSpace c = false ∧ c ≠ '+' ∧ c ≠ '-' := by
  have hval : 48 ≤ c.toNat := by
    unfold hexDigitVal at h
    split_ifs at h with h1 h2 h3
    · omega
    · omega
    · omega
  refine ⟨?_, ?_, ?_⟩
  · simp only [cSpace, decide_eq_false_iff_not]
    omega
  · intro he
    rw [he] at hval
    exact absurd hval (by decide)
  · intro he
    rw [he] at hval
    exact absurd hval (by decide)

/-- `strtol(.., 16)` on a two-character buffer of hex digits. -/
theorem strtol16_pair {c1 c2 : Char} {d1 d2 : Nat}
    (h1 : hexDigitVal c1 = some d1) (h2 : hexDigitVal c2 = some d2) :
    strtol16 [c1, c2] = ((16 * d1 + d2 : Nat) : Int) := by
  obtain ⟨hs1, hp1, hm1⟩ := hexDigit_facts h1
  simp only [strtol16, List.dropWhile_cons, hs1, Bool.false_eq_true, if_false,
    if_neg hp1, if_neg hm1, hexBody, Bool.and_false, hexLoop, h1, h2]
  push_cast
  ring

/-- `parseColor` fails on every string of the wrong length or not starting
with `#`. -/
theorem parseColor_fails (s : String) (d : AIColor4D)
    (h : (s.length ≠ 7 ∧ s.length ≠ 9) ∨ s.data.head? ≠ some '#') :
    parseColor s d = none := by
  unfold parseColor parseColorChars
  rcases h with ⟨h7, h9⟩ | hh
  · rw [if_pos ⟨h9, h7⟩]
  · by_cases hl : s.data.length ≠ 9 ∧ s.data.length ≠ 7
    · rw [if_pos hl]
    · rw [if_neg hl]
      cases hd : s.data with
      | nil => rfl
      | cons c rest =>
        rw [hd] at hh
        simp only [List.head?_cons, ne_eq, Option.some.injEq] at hh
        simp only [hd, if_pos hh]

/-- Claim C5: for every color string of the exact form `#RRGGBB` or
`#RRGGBBAA` (hex byte pairs), parsing succeeds, each RGB component equals
the decoded byte divided by 255, and alpha is the decoded fourth byte over
255 in the long form and 1.0 in the short form. -/
theorem c5_parse_valid_color :
    (∀ (e1 e2 e3 e4 e5 e6 : Char) (d1 d2 d3 d4 d5 d6 : Nat),
      hexDigitVal e1 = some d1 → hexDigitVal e2 = some d2 →
      hexDigitVal e3 = some d3 → hexDigitVal e4 = some d4 →
      hexDigitVal e5 = some d5 → hexDigitVal e6 = some d6 →
      parseColor (String.mk ['#', e1, e2, e3, e4, e5, e6]) defaultAiColor4D =
        some ⟨((16 * d1 + d2 : Nat) : ℚ) / 255, ((16 * d3 + d4 : Nat) : ℚ) / 255,
              ((16 * d5 + d6 : Nat) : ℚ) / 255, 1⟩) ∧
    (∀ (e1 e2 e3 e4 e5 e6 e7 e8 : Char) (d1 d2 d3 d4 d5 d6 d7 d8 : Nat),
      hexDigitVal e1 = some d1 → hexDigitVal e2 = some d2 →
      hexDigitVal e3 = some d3 → hexDigitVal e4 = some d4 →
      hexDigitVal e5 = some d5 → hexDigitVal e6 = some d6 →
      hexDigitVal e7 = some d7 → hexDigitVal e8 = some d8 →
      parseColor (String.mk ['#', e1, e2, e3, e4, e5, e6, e7, e8]) defaultAiColor4D =
        some ⟨((16 * d1 + d2 : Nat) : ℚ) / 255, ((16 * d3 + d4 : Nat) : ℚ) / 255,
              ((16 * d5 + d6 : Nat) : ℚ) / 255, ((16 * d7 + d8 : Nat) : ℚ) / 255⟩) := by
  constructor
  · intro e1 e2 e3 e4 e5 e6 d1 d2 d3 d4 d5 d6 h1 h2 h3 h4 h5 h6
    show parseColorChars ['#', e1, e2, e3, e4, e5, e6] defaultAiColor4D = _
    simp [parseColorChars, strtol16_pair h1 h2, strtol16_pair h3 h4,
      strtol16_pair h5 h6, defaultAiColor4D]
  · intro e1 e2 e3 e4 e5 e6 e7 e8 d1 d2 d3 d4 d5 d6 d7 d8 h1 h2 h3 h4 h5 h6 h7 h8
    show parseColorChars ['#', e1, e2, e3, e4, e5, e6, e7, e8] defaultAiColor4D = _
    simp [parseColorChars, strtol16_pair h1 h2, strtol16_pair h3 h4,
      strtol16_pair h5 h6, strtol16_pair h7 h8, defaultAiColor4D]

/-- Claim C5 witness at the concrete inputs `#11AA22` and `#11AA2280`. -/
theorem c5_parse_valid_color_witness :
    parseColor (String.mk ['#', '1', '1', 'A', 'A', '2', '2']) defaultAiColor4D =
      some ⟨((16 * 1 + 1 : Nat) : ℚ) / 255, ((16 * 10 + 10 : Nat) : ℚ) / 255,
            ((16 * 2 + 2 : Nat) : ℚ) / 255, 1⟩ ∧
    parseColor (String.mk ['#', '1', '1', 'A', 'A', '2', '2', '8', '0']) defaultAiColor4D =
      some ⟨((16 * 1 + 1 : Nat) : ℚ) / 255, ((16 * 10 + 10 : Nat) : ℚ) / 255,
            ((16 * 2 + 2 : Nat) : ℚ) / 255, ((16 * 8 + 0 : Nat) : ℚ) / 255⟩ :=
  ⟨c5_parse_valid_color.1 '1' '1' 'A' 'A' '2' '2' 1 1 10 10 2 2
      (by decide) (by decide) (by decide) (by decide) (by decide) (by decide),
   c5_parse_valid_color.2 '1' '1' 'A' 'A' '2' '2' '8' '0' 1 1 10 10 2 2 8 0
      (by decide) (by decide) (by decide) (by decide) (by decide) (by decide)
      (by decide) (by decide)⟩

/-- Claim C8: a color string that does not have length 7 or 9, or does not
start with `#`, makes `parseColor` report failure, and `assignDiffuseColor`
then leaves the material (hence any prior diffuse color) untouched. -/
theorem c8_reject_invalid_color (s : String) (node : XmlElem) (mat : AIMaterial)
    (hattr : asString (getNodeAttribute node XmlTag.basematerials_displaycolor) = s)
    (h : (s.length ≠ 7 ∧ s.length ≠ 9) ∨ s.data.head? ≠ some '#') :
    parseColor s defaultAiColor4D = none ∧ assignDiffuseColor node mat = mat := by
  have hfail := parseColor_fails s defaultAiColor4D h
  refine ⟨hfail, ?_⟩
  unfold assignDiffuseColor
  simp only [hattr, hfail]

/-- Claim C8 witness at the string `red`. -/
theorem c8_reject_invalid_color_witness :
    parseColor "red" defaultAiColor4D = none ∧ assignDiffuseColor c8node c8mat = c8mat :=
  c8_reject_invalid_color "red" c8node c8mat (by decide) (by decide)

/-- Claim C10: `ImportXml` called with a null scene pointer returns at once:
the serializer state is unchanged and no output is produced. -/
theorem c10_null_scene (st : SState) (docRoot : XmlElem) :
    ImportXml st docRoot none = some (st, none) := rfl

/-- Claim C9: a document without a `model` element, or whose model has no
`resources` element, decodes to an empty result: a scene with a root node
but no meshes, no materials and no metadata, with no hard failure. -/
theorem c9_empty_result :
    (∀ (st : SState) (doc : XmlElem), childNamed doc XmlTag.model = none →
      ImportXml st doc (some emptyAIScene) =
        some (st, some ⟨some ⟨"", []⟩, [], [], []⟩)) ∧
    (∀ (doc modelNode : XmlElem), childNamed doc XmlTag.model = some modelNode →
      childNamed modelNode XmlTag.resources = none →
      ImportXml initState doc (some emptyAIScene) =
        some (initState, some ⟨some ⟨"3MF", []⟩, [], [], []⟩)) := by
  constructor
  · intro st doc h
    simp [ImportXml, h, emptyAIScene]
  · intro doc modelNode h1 h2
    simp [ImportXml, h1, h2, importXmlLoop, initState, emptyAIScene]

/-- Claim C9 witness at two concrete documents. -/
theorem c9_empty_result_witness :
    ImportXml initState c9docA (some emptyAIScene) =
      some (initState, some ⟨some ⟨"", []⟩, [], [], []⟩) ∧
    ImportXml initState c9docB (some emptyAIScene) =
      some (initState, some ⟨some ⟨"3MF", []⟩, [], [], []⟩) :=
  ⟨c9_empty_result.1 initState c9docA rfl,
   c9_empty_result.2 c9docB (.mk "model" [] [] "") rfl rfl⟩

/-- Claim C2: decoding a resources section whose only object lacks an `id`
attribute produces no mesh and no material, but the root's children array
receives a null entry for the id-less object (the null node pointer
returned by `ReadObject` is pushed unconditionally). -/
theorem c2_missing_id_null_child :
    getNodeAttribute objNoId XmlTag.id = none ∧
    ImportXml initState (docOf [objNoId]) (some emptyAIScene) =
      some (initState, some ⟨some ⟨"3MF", [none]⟩, [], [], []⟩) := by decide

/-- Claim C1 counterexample: in `c1doc` the triangle's `pid`/`p1` resolve to
global material index 1 and `ImportTriangles` assigns it, yet the final mesh
material index is 0, the object-level `pid`/`pindex` value: the object-level
assignment runs after the triangles and overwrites them. -/
theorem c1_counterexample :
    ((ImportXml initState c1doc (some emptyAIScene)).map
       (fun r => r.2.map (fun sc => sc.meshes.map AIMesh.materialIndex)) =
      some (some [0])) ∧
    ((ImportTriangles c1st0.dict trisC1 newAIMesh).map AIMesh.materialIndex =
      some 1) ∧
    vecGet ((c1st0.dict.lookup (intToU32 (atoi "1"))).getD []) (atoi "1") =
      some (1, some ⟨"id1_B", none⟩) := by decide

/-- Claim C3 counterexample: after two `basematerials` groups both declaring
id 1, the dictionary still maps 1 to the first group's sequence, not to the
sequence parsed from the later declaration. -/
theorem c3_counterexample :
    (ReadBaseMaterials (ReadBaseMaterials initState bmA1) bmB1).dict.lookup 1 =
      some [(0, some ⟨"id1_A", none⟩)] ∧
    (readBaseMaterialsLoop 1 bmB1.children []
        (ReadBaseMaterials initState bmA1).materialCount).1 =
      [(1, some ⟨"id1_B", none⟩)] ∧
    some [((0 : Nat), some (AIMaterial.mk "id1_A" none))] ≠
      some [(1, some (AIMaterial.mk "id1_B" none))] := by decide

/-- Claim C6: with group id 0 declared (second, so its sole entry has global
index 1), a triangle carrying no `pid` and no `p1` attribute still rewrites
the mesh's material index to 1: the absent attributes read as empty strings,
`atoi` maps them to 0, and the null-pointer guard never fires. -/
theorem c6_missing_attrs_overwrite :
    getNodeAttribute triNoAttr XmlTag.pid = none ∧
    getNodeAttribute triNoAttr XmlTag.p1 = none ∧
    newAIMesh.materialIndex = 0 ∧
    ([bm5, bm0].foldl ReadBaseMaterials initState).dict.lookup 0 =
      some [(1, some ⟨"id0_", none⟩)] ∧
    ((ImportXml initState (docOf [bm5, bm0, objPlain]) (some emptyAIScene)).map
       (fun r => r.2.map (fun sc => sc.meshes.map AIMesh.materialIndex)) =
      some (some [1])) := by decide

/-- Claim C7: a triangle referencing declared group 1 at out-of-range
position 5 drives the decoder into the unchecked vector subscript: the
group lookup succeeds, the subscript is out of bounds, and the decode
reaches the undefined access (`none`), not a guarded lookup failure. -/
theorem c7_out_of_range_unguarded :
    ((ReadBaseMaterials initState bm1one).dict.lookup (intToU32 (atoi "1"))).isSome = true ∧
    vecGet (((ReadBaseMaterials initState bm1one).dict.lookup
        (intToU32 (atoi "1"))).getD []) (atoi "5") = none ∧
    ImportXml initState (docOf [bm1one, obj7]) (some emptyAIScene) = none := by decide

/-- Claim C3 amended: re-declaring an already-present group id leaves the
dictionary completely unchanged (`std::map::insert` does not overwrite:
the first declaration wins), while the parsed materials of the duplicate
group still consume counter values. -/
theorem c3_first_write_wins (st : SState) (node : XmlElem)
    (h : (st.dict.lookup (intToU32 (atoi (asString
        (getNodeAttribute node XmlTag.basematerials_id))))).isSome) :
    (ReadBaseMaterials st node).dict = st.dict := by
  unfold ReadBaseMaterials
  simp only [mapInsert, h, if_true, if_pos]

/-- Claim C3 amended witness: the duplicate id-1 group leaves the
dictionary as it was. -/
theorem c3_first_write_wins_witness :
    (ReadBaseMaterials (ReadBaseMaterials initState bmA1) bmB1).dict =
      (ReadBaseMaterials initState bmA1).dict :=
  c3_first_write_wins (ReadBaseMaterials initState bmA1) bmB1 (by decide)

/-- The object-level assignment, when its `pid`/`pindex` pair resolves to
the dictionary pair `pr`, rewrites any mesh's material index to `pr.1`. -/
theorem objAssign_resolves (dict : Dict) (pidv pindexv : String)
    (pr : Nat × Option AIMaterial)
    (hlk : (dict.lookup (intToU32 (atoi pidv))).isSome)
    (hv : vecGet ((dict.lookup (intToU32 (atoi pidv))).getD []) (atoi pindexv) = some pr)
    (mesh : AIMesh) :
    objAssign dict (some pidv) (some pindexv) mesh =
      some { mesh with materialIndex := pr.1 } := by
  simp [objAssign, hlk, hv]

/-- When the object-level `pid`/`pindex` pair resolves to the dictionary
pair `pr`, every mesh the object's mesh loop appends leaves the loop with
material index `pr.1`, whatever its triangles assigned. -/
theorem readObjectLoop_mem (dict : Dict) (pidv pindexv id : String)
    (pr : Nat × Option AIMaterial)
    (hv : vecGet ((dict.lookup (intToU32 (atoi pidv))).getD []) (atoi pindexv) = some pr) :
    ∀ (l : List XmlElem) (meshes : List AIMesh) (ids : List Nat) (idx : Nat)
      (res : List AIMesh × List Nat × Nat),
      readObjectLoop dict (some pidv) (some pindexv) id l meshes ids idx = some res →
      ∀ m ∈ res.1, m ∈ meshes ∨ m.materialIndex = pr.1 := by
  have hlk : (dict.lookup (intToU32 (atoi pidv))).isSome := by
    cases hl : dict.lookup (intToU32 (atoi pidv)) with
    | none =>
      rw [hl] at hv
      simp only [Option.getD_none] at hv
      unfold vecGet at hv
      split_ifs at hv
      all_goals simp at hv
    | some g => rfl
  intro l
  induction l with
  | nil =>
    intro meshes ids idx res hres m hm
    unfold readObjectLoop at hres
    cases hres
    exact Or.inl hm
  | cons c rest ih =>
    intro meshes ids idx res hres m hm
    unfold readObjectLoop at hres
    by_cases hc : c.name = XmlTag.mesh
    · rw [if_pos hc] at hres
      cases hb : (ReadMesh dict c).bind
          (fun mesh0 => objAssign dict (some pidv) (some pindexv) { mesh0 with name := id }) with
      | none => rw [hb] at hres; exact Option.noConfusion hres
      | some mesh2 =>
        rw [hb] at hres
        have hP : mesh2.materialIndex = pr.1 := by
          rcases Option.bind_eq_some.mp hb with ⟨mesh0, _, hoa⟩
          rw [objAssign_resolves dict pidv pindexv pr hlk hv] at hoa
          cases hoa
          rfl
        rcases ih (meshes ++ [mesh2]) (ids ++ [idx]) (idx + 1) res hres m hm with hmem | hPm
        · rcases List.mem_append.mp hmem with h1 | h1
          · exact Or.inl h1
          · exact Or.inr (by rw [List.mem_singleton.mp h1]; exact hP)
        · exact Or.inr hPm
    · rw [if_neg hc] at hres
      exact ih meshes ids idx res hres m hm

/-- Claim C1 amended: the object-level `pid`/`pindex` reference is resolved
and applied to each mesh after that mesh's triangles have been processed,
so it overwrites any triangle-level assignment: when the object-level
reference resolves to the dictionary pair `pr`, every mesh the object adds
ends with material index `pr.1`. -/
theorem c1_object_pid_wins (st : SState) (node : XmlElem)
    (idv pidv pindexv : String) (pr : Nat × Option AIMaterial)
    (st' : SState) (obj : Option ObjNode)
    (hid : getNodeAttribute node XmlTag.id = some idv)
    (hpid : getNodeAttribute node XmlTag.pid = some pidv)
    (hpindex : getNodeAttribute node XmlTag.pindex = some pindexv)
    (hv : vecGet ((st.dict.lookup (intToU32 (atoi pidv))).getD []) (atoi pindexv) = some pr)
    (hro : ReadObject st node = some (st', obj)) :
    ∀ m ∈ st'.meshes, m ∈ st.meshes ∨ m.materialIndex = pr.1 := by
  unfold ReadObject at hro
  rw [hid, hpid, hpindex] at hro
  simp only [] at hro
  split at hro
  · exact Option.noConfusion hro
  next meshes ids snd hl =>
    injection hro with h1
    rw [Prod.mk.injEq] at h1
    obtain ⟨hA, hB⟩ := h1
    intro m hm
    rw [← hA] at hm
    exact readObjectLoop_mem st.dict pidv pindexv idv pr hv node.children
      st.meshes [] st.meshes.length (meshes, ids, snd) hl m hm

/-- Claim C1 amended witness: applying the theorem to `c1doc`'s object
shows its mesh ends with the object-level material index 0. -/
theorem c1_object_pid_wins_witness :
    (c1res.1.meshes.getD 0 newAIMesh) ∈ c1st0.meshes ∨
      (c1res.1.meshes.getD 0 newAIMesh).materialIndex =
        ((0 : Nat), some (AIMaterial.mk "id1_A" none)).1 :=
  c1_object_pid_wins c1st0 objC1 "o" "1" "0" (0, some ⟨"id1_A", none⟩) c1res.1 c1res.2
    (by decide) (by decide) (by decide) (by decide) (by decide)
    (c1res.1.meshes.getD 0 newAIMesh) (by decide)

/-- `countBases` on a cons. -/
theorem countBases_cons (c : XmlElem) (l : List XmlElem) :
    countBases (c :: l) =
      if c.name = XmlTag.basematerials_base then countBases l + 1 else countBases l := by
  by_cases h : c.name = XmlTag.basematerials_base
  · simp [countBases, h]
  · simp [countBases, h]

/-- The material loop of `ReadBaseMaterials`, below the counter wrap,
appends exactly the pairs `pairsFrom` describes and advances the counter by
the number of `base` children. -/
theorem rbml_spec (id : Nat) :
    ∀ (l : List XmlElem) (mats : List (Nat × Option AIMaterial)) (cnt : Nat),
      cnt + countBases l < u32Mod →
      readBaseMaterialsLoop id l mats cnt = (mats ++ pairsFrom id cnt l, cnt + countBases l) := by
  intro l
  induction l with
  | nil =>
    intro mats cnt h
    simp [readBaseMaterialsLoop, pairsFrom, countBases]
  | cons c rest ih =>
    intro mats cnt h
    rw [countBases_cons] at h ⊢
    by_cases hc : c.name = XmlTag.basematerials_base
    · rw [if_pos hc] at h ⊢
      unfold readBaseMaterialsLoop
      rw [if_pos hc]
      have hlt : cnt + 1 < u32Mod := by omega
      rw [Nat.mod_eq_of_lt hlt]
      rw [ih (mats ++ [(cnt, readMaterialDef c id)]) (cnt + 1) (by omega)]
      simp only [pairsFrom]
      rw [if_pos hc, Prod.mk.injEq]
      constructor
      · simp
      · omega
    · rw [if_neg hc] at h ⊢
      unfold readBaseMaterialsLoop
      rw [if_neg hc]
      rw [ih mats cnt h]
      simp only [pairsFrom]
      rw [if_neg hc]

/-- The global indices of the pairs built from counter `cnt` are the
consecutive range starting at `cnt`. -/
theorem pairsFrom_fst (id : Nat) :
    ∀ (l : List XmlElem) (cnt : Nat),
      (pairsFrom id cnt l).map Prod.fst = idxRange cnt (countBases l) := by
  intro l
  induction l with
  | nil => intro cnt; simp [pairsFrom, countBases, idxRange]
  | cons c rest ih =>
    intro cnt
    rw [countBases_cons]
    by_cases hc : c.name = XmlTag.basematerials_base
    · rw [if_pos hc]
      simp only [pairsFrom]
      rw [if_pos hc]
      simp only [List.map_cons, ih (cnt + 1)]
      rfl
    · rw [if_neg hc]
      simp only [pairsFrom]
      rw [if_neg hc]
      exact ih cnt

/-- Membership in `idxRange`. -/
theorem mem_idxRange :
    ∀ (n c i : Nat), i ∈ idxRange c n ↔ c ≤ i ∧ i < c + n := by
  intro n
  induction n with
  | zero => intro c i; simp [idxRange]
  | succ k ih =>
    intro c i
    simp only [idxRange, List.mem_cons, ih (c + 1)]
    omega

/-- `idxRange` has no duplicates. -/
theorem idxRange_nodup : ∀ (n c : Nat), (idxRange c n).Nodup := by
  intro n
  induction n with
  | zero => intro c; simp [idxRange]
  | succ k ih =>
    intro c
    simp only [idxRange, List.nodup_cons]
    refine ⟨?_, ih (c + 1)⟩
    intro hmem
    have := (mem_idxRange k (c + 1) c).mp hmem
    omega

/-- `dictIdx` distributes over appending one group. -/
theorem dictIdx_append (d : Dict) (g : Nat × List (Nat × Option AIMaterial)) :
    dictIdx (d ++ [g]) = dictIdx d ++ g.2.map Prod.fst := by
  simp [dictIdx]

/-- Characterization of `ReadBaseMaterials` below the counter wrap. -/
theorem readBaseMaterials_eq (st : SState) (node : XmlElem)
    (hb : st.materialCount + countBases node.children < u32Mod) :
    ReadBaseMaterials st node =
      { st with
        dict := mapInsert st.dict
          (intToU32 (atoi (asString (getNodeAttribute node XmlTag.basematerials_id))))
          (pairsFrom (intToU32 (atoi (asString (getNodeAttribute node XmlTag.basematerials_id))))
            st.materialCount node.children),
        materialCount := st.materialCount + countBases node.children } := by
  unfold ReadBaseMaterials
  simp only []
  rw [rbml_spec _ _ _ _ hb]
  simp

/-- One `ReadBaseMaterials` step preserves the dictionary invariant and
advances the counter by the group's number of base materials. -/
theorem readBaseMaterials_ok (st : SState) (node : XmlElem)
    (hok : dictOk st) (hb : st.materialCount + countBases node.children < u32Mod) :
    dictOk (ReadBaseMaterials st node) ∧
      (ReadBaseMaterials st node).materialCount =
        st.materialCount + countBases node.children := by
  obtain ⟨hbound, hnd⟩ := hok
  rw [readBaseMaterials_eq st node hb]
  refine ⟨⟨?_, ?_⟩, rfl⟩
  all_goals
    simp only [mapInsert]
    split_ifs with hk
  · intro i hi
    exact lt_of_lt_of_le (hbound i hi) (Nat.le_add_right _ _)
  · intro i hi
    rw [dictIdx_append] at hi
    rcases List.mem_append.mp hi with hi' | hi'
    · exact lt_of_lt_of_le (hbound i hi') (Nat.le_add_right _ _)
    · rw [pairsFrom_fst] at hi'
      exact ((mem_idxRange _ _ _).mp hi').2
  · exact hnd
  · rw [dictIdx_append, pairsFrom_fst]
    rw [List.nodup_append]
    refine ⟨hnd, idxRange_nodup _ _, ?_⟩
    intro a ha hb'
    have h1 := hbound a ha
    have h2 := ((mem_idxRange _ _ _).mp hb').1
    omega

/-- Folding `ReadBaseMaterials` over any group list whose total base count
stays below the counter wrap preserves the dictionary invariant. -/
theorem fold_rbm_ok :
    ∀ (gs : List XmlElem) (st : SState), dictOk st →
      st.materialCount + sumBases gs < u32Mod →
      dictOk (gs.foldl ReadBaseMaterials st) := by
  intro gs
  induction gs with
  | nil => intro st hok _; exact hok
  | cons g rest ih =>
    intro st hok hb
    have hsum : sumBases (g :: rest) = countBases g.children + sumBases rest := by
      simp [sumBases]
    rw [hsum] at hb
    have hstep := readBaseMaterials_ok st g hok (by omega)
    rw [List.foldl_cons]
    exact ih (ReadBaseMaterials st g) hstep.1 (by rw [hstep.2]; omega)

/-- Claim C4: global material indices are pairwise distinct across all
groups (for any group list decoded from the initial state, absent counter
wrap), and in the concrete two-then-three-member declaration the assigned
index sets are `{0,1}` and `{2,3,4}`, in group-then-member order. -/
theorem c4_material_indices :
    (∀ gs : List XmlElem, sumBases gs < u32Mod →
      (dictIdx ((gs.foldl ReadBaseMaterials initState).dict)).Nodup) ∧
    (([bmAB, bmABC2].foldl ReadBaseMaterials initState).dict.lookup 1 =
        some [(0, some ⟨"id1_A", none⟩), (1, some ⟨"id1_B", none⟩)] ∧
     ([bmAB, bmABC2].foldl ReadBaseMaterials initState).dict.lookup 2 =
        some [(2, some ⟨"id2_", none⟩), (3, some ⟨"id2_", none⟩), (4, some ⟨"id2_", none⟩)]) := by
  constructor
  · intro gs h
    have hok : dictOk initState := by
      constructor
      · intro i hi
        simp [dictIdx, initState] at hi
      · simp [dictIdx, initState]
    exact (fold_rbm_ok gs initState hok (by simpa [initState] using h)).2
  · constructor
    · decide
    · decide

/-- Claim C4 witness: the invariant applied to the concrete two-group
declaration. -/
theorem c4_material_indices_witness :
    (dictIdx (([bmAB, bmABC2].foldl ReadBaseMaterials initState).dict)).Nodup :=
  c4_material_indices.1 [bmAB, bmABC2] (by decide)
